import Mathlib

/-!
Verification of the probabilistic username-existence cache
(UsernameBloomFilter backed by Redis) of the credentials repository.

The TypeScript class UsernameBloomFilter (services/usernameBloomFilter.ts)
wraps an in-memory Bloom filter (the external bloom-filters npm package)
and persists a shadow set of added elements plus a small metadata blob in
Redis.  We embed the class as a pure state machine:

  - the Bloom filter engine carries the list of bit positions that have
    been set (a position is set in the bit array exactly when it occurs
    in the list) together with the list of distinct elements inserted so
    far;
  - Redis is a pair of slots: the metadata blob stored at config.redisKey
    and the set stored at the key "config.redisKey:elements", kept as a
    duplicate-free list (sadd inserts only when absent; a Redis set key
    exists exactly when the set is nonempty);
  - each method becomes a function on this state; methods that throw when
    the filter is not initialized return Except.

The hash family of the bloom-filters package is external to the
repository; per the design, any deterministic double-hashing scheme is an
acceptable model (determinism is the only requirement), so we fix a
concrete polynomial double hash.
-/

/-- The JavaScript toLowerCase() normalization, modelled on the character
list of the string (ASCII letters are mapped to lower case). -/
def jsToLower (s : String) : String :=
  ⟨s.data.map Char.toLower⟩

/-- The JavaScript trim() normalization: strip whitespace from both ends. -/
def jsTrim (s : String) : String :=
  ⟨((s.data.dropWhile Char.isWhitespace).reverse.dropWhile Char.isWhitespace).reverse⟩

/-- First polynomial string hash, used as the base of the double-hashing
scheme that models the engine hash family. -/
def hashA (s : String) : ℕ :=
  s.data.foldl (fun a c => a * 31 + c.toNat) 5381

/-- Second, independent polynomial string hash for double hashing. -/
def hashB (s : String) : ℕ :=
  s.data.foldl (fun a c => a * 131 + c.toNat) 7

/-- Modelled from the spec: the bloom-filters package computes, for a
string, k hash positions in the range [0, m); the exact hash family is an
implementation choice provided it is deterministic, so we model it as the
standard double-hashing scheme position_i = (hashA s + i * hashB s) mod m. -/
def hashPositions (m k : ℕ) (s : String) : List ℕ :=
  (List.range k).map (fun i => (hashA s + i * hashB s) % m)

/-- Modelled from the spec: the in-memory Bloom filter engine of the
bloom-filters package, as used through add, has, length and size.
A bit of the size-m bit array is set exactly when its position occurs in
bits; elems is the duplicate-free list of distinct elements inserted so
far, backing the tracked insertion count returned by the length property. -/
structure BloomFilterEngine where
  size : ℕ
  hashes : ℕ
  bits : List ℕ
  elems : List String
deriving DecidableEq

/-- Engine add: set the k hash positions of the element and record it
(recording is idempotent: a duplicate element adds nothing to elems). -/
def BloomFilterEngine.add (bf : BloomFilterEngine) (s : String) : BloomFilterEngine :=
  { bf with
    bits := bf.bits ++ hashPositions bf.size bf.hashes s
    elems := bf.elems.insert s }

/-- Engine membership test: true iff all k hash positions are set. -/
def BloomFilterEngine.has (bf : BloomFilterEngine) (s : String) : Bool :=
  (hashPositions bf.size bf.hashes s).all (fun p => decide (p ∈ bf.bits))

/-- The length property of the engine: its tracked insertion count. -/
def BloomFilterEngine.count (bf : BloomFilterEngine) : ℕ :=
  bf.elems.length

/-- A freshly constructed engine: new BloomFilter(m, k). -/
def freshEngine (m k : ℕ) : BloomFilterEngine :=
  ⟨m, k, [], []⟩

/-- The metadata blob written by saveToRedis at config.redisKey:
JSON.stringify of capacity, errorRate and an always-empty elements list.
We record the two meaningful numbers; the error rate is kept as a rational. -/
structure CacheMetadata where
  capacity : ℕ
  errorRate : ℚ
deriving DecidableEq

/-- The Redis state visible to the class: the metadata blob at
config.redisKey (none when the key is absent) and the set at the key
"config.redisKey:elements", as a duplicate-free list.  In Redis a set key
exists exactly when the set is nonempty, so key existence for the
elements key is nonemptiness. -/
structure RedisState where
  meta : Option CacheMetadata
  elements : List String
deriving DecidableEq

/-- The whole state of a UsernameBloomFilter instance: the engine object,
the Redis connection state, the isInitialized flag, and the config.  The
fields mParam and kParam are the bit-array size and hash count computed
from the config by the constructor; clear, rebuild and loadFromRedis
recompute them from the same config with the textually identical formula
(see the paramsAgree theorems), so the model reuses the stored values. -/
structure FilterState where
  engine : BloomFilterEngine
  redis : RedisState
  isInitialized : Bool
  capacity : ℕ
  errorRate : ℚ
  mParam : ℕ
  kParam : ℕ
deriving DecidableEq

/-- The constructor: stores the config and builds a fresh engine from the
computed parameters; Redis is passed in and not touched. -/
def mkFilter (m k capacity : ℕ) (errorRate : ℚ) (redis : RedisState) : FilterState :=
  ⟨freshEngine m k, redis, false, capacity, errorRate, m, k⟩

/-- saveToRedis: writes the metadata blob at config.redisKey, then
deletes the "config.redisKey:elements" key. -/
def saveToRedis (st : FilterState) : FilterState :=
  { st with redis := ⟨some ⟨st.capacity, st.errorRate⟩, []⟩ }

/-- The successful body of addUsername: normalize, engine add, sadd the
normalized element to the elements set, then saveToRedis. -/
def addCore (username : String) (st : FilterState) : FilterState :=
  saveToRedis
    { st with
      engine := st.engine.add (jsToLower username)
      redis := { st.redis with elements := st.redis.elements.insert (jsToLower username) } }

/-- addUsername: throws when not initialized, otherwise runs the body. -/
def addUsername (username : String) (st : FilterState) : Except String FilterState :=
  if st.isInitialized then .ok (addCore username st)
  else .error "Bloom filter not initialized"

/-- mightExist: throws when not initialized, otherwise delegates to the
engine membership test on the lower-cased name. -/
def mightExist (username : String) (st : FilterState) : Except String Bool :=
  if st.isInitialized then .ok (st.engine.has (jsToLower username))
  else .error "Bloom filter not initialized"

/-- The fixed bootstrap list of seedWithSampleUsernames. -/
def sampleUsernames : List String :=
  ["admin", "user", "test", "demo", "guest", "root", "john", "jane",
   "alice", "bob", "charlie", "david", "emma", "frank", "grace",
   "henry", "ivy", "jack", "kate", "liam", "mia", "noah", "olivia",
   "peter", "quinn", "ruby", "sam", "tina", "uma", "victor", "wendy"]

/-- One iteration of the seeding loop: engine add plus sadd of the
normalized username. -/
def seedStep (st : FilterState) (username : String) : FilterState :=
  { st with
    engine := st.engine.add (jsToLower username)
    redis := { st.redis with elements := st.redis.elements.insert (jsToLower username) } }

/-- seedWithSampleUsernames: adds every sample username to the engine and
to the elements set, then saveToRedis. -/
def seedWithSampleUsernames (st : FilterState) : FilterState :=
  saveToRedis (sampleUsernames.foldl seedStep st)

/-- loadFromRedis: when the metadata blob is present, recompute the
parameters from the stored config (identical to the constructor values,
see the paramsAgree theorems), recreate the engine and replay every
stored element through the engine add loop; when the key is absent,
leave the engine untouched. -/
def loadFromRedis (st : FilterState) : FilterState :=
  match st.redis.meta with
  | none => st
  | some _ =>
      { st with
        engine := st.redis.elements.foldl BloomFilterEngine.add
          (freshEngine st.mParam st.kParam) }

/-- initialize: loadFromRedis, then scard of the elements key; when zero,
seed the sample usernames; finally mark the filter initialized. -/
def initializeFilter (st : FilterState) : FilterState :=
  let st1 := loadFromRedis st
  let st2 := if st1.redis.elements.length = 0 then seedWithSampleUsernames st1 else st1
  { st2 with isInitialized := true }

/-- clear: recreate the engine from recomputed parameters, delete both
Redis keys, and reset the isInitialized flag. -/
def clear (st : FilterState) : FilterState :=
  { st with
    engine := freshEngine st.mParam st.kParam
    redis := ⟨none, []⟩
    isInitialized := false }

/-- rebuild: read the stored elements, recreate the engine from
recomputed parameters, replay every element through the engine add loop,
then saveToRedis. -/
def rebuild (st : FilterState) : FilterState :=
  saveToRedis
    { st with
      engine := st.redis.elements.foldl BloomFilterEngine.add
        (freshEngine st.mParam st.kParam) }

/-- The record returned by getStats. -/
structure FilterStats where
  capacity : ℕ
  errorRate : ℚ
  estimatedElements : ℕ
  size : ℕ
deriving DecidableEq

/-- getStats: config values plus the engine length and size properties. -/
def getStats (st : FilterState) : FilterStats :=
  ⟨st.capacity, st.errorRate, st.engine.count, st.engine.size⟩

/-- The record returned by validateCache. -/
structure ValidationResult where
  isValid : Bool
  storedElements : ℕ
  filterElements : ℕ
  errors : List String
deriving DecidableEq

/-- validateCache: checks existence of the two Redis keys against each
other and compares the stored element count with the engine length,
with a fixed tolerance of 10; it only reads, so it returns the state
unchanged (second component). -/
def validateCache (st : FilterState) : ValidationResult × FilterState :=
  let filterExists : Bool := st.redis.meta.isSome
  let elementsExist : Bool := !st.redis.elements.isEmpty
  let e1 : Bool := !filterExists && elementsExist
  let e2 : Bool := filterExists && !elementsExist
  let storedElements := st.redis.elements.length
  let filterElements := st.engine.count
  let e3 : Bool := decide (((storedElements : ℤ) - (filterElements : ℤ)).natAbs > 10)
  let errors :=
    (if e1 then ["Filter metadata missing but elements exist"] else []) ++
    (if e2 then ["Filter metadata exists but elements missing"] else []) ++
    (if e3 then ["Element count mismatch"] else [])
  (⟨!(e1 || e2 || e3), storedElements, filterElements, errors⟩, st)

/-- A sequence of further successful addUsername calls, applied in order
(on an initialized state each addUsername call succeeds and its body is
addCore, see the confirmed no-false-negatives theorem). -/
def runAdds (names : List String) (st : FilterState) : FilterState :=
  names.foldl (fun s n => addCore n s) st

/-- The response of the POST /username/validate route handler. -/
inductive RouteResponse where
  | ok (username : String) (mightExist : Bool)
  | invalidInput
  | serverError
deriving DecidableEq

/-- The /username/validate handler: rejects an empty or whitespace-only
username with HTTP 400 (invalidInput) before touching the filter;
otherwise lower-cases and trims the name, asks the filter, and returns
the normalized name with the verdict; a thrown error becomes HTTP 500.
The handler performs no write to the filter or to Redis (it returns no
new state). -/
def validateUsernameRoute (username : String) (st : FilterState) : RouteResponse :=
  if jsTrim username = "" then .invalidInput
  else
    let normalized := jsTrim (jsToLower username)
    match mightExist normalized st with
    | .error _ => .serverError
    | .ok b => .ok normalized b

deriving instance DecidableEq for Except

/-- Transcribed from the constructor of UsernameBloomFilter: the optimal
bit-array size m = ceil(-n ln p / (ln 2)^2) and hash count
k = max(1, ceil((m / n) ln 2)) computed from capacity n and error rate p. -/
noncomputable def constructorParams (n : ℕ) (p : ℝ) : ℤ × ℤ :=
  let m : ℤ := ⌈-(n : ℝ) * Real.log p / (Real.log 2 * Real.log 2)⌉
  let k : ℤ := max 1 ⌈((m : ℝ) / (n : ℝ)) * Real.log 2⌉
  (m, k)

/-- Transcribed from loadFromRedis: the recomputation of m and k from the
stored capacity and error rate. -/
noncomputable def loadParams (n : ℕ) (p : ℝ) : ℤ × ℤ :=
  let m : ℤ := ⌈-(n : ℝ) * Real.log p / (Real.log 2 * Real.log 2)⌉
  let k : ℤ := max 1 ⌈((m : ℝ) / (n : ℝ)) * Real.log 2⌉
  (m, k)

/-- Transcribed from clear: the recomputation of m and k from the config. -/
noncomputable def clearParams (n : ℕ) (p : ℝ) : ℤ × ℤ :=
  let m : ℤ := ⌈-(n : ℝ) * Real.log p / (Real.log 2 * Real.log 2)⌉
  let k : ℤ := max 1 ⌈((m : ℝ) / (n : ℝ)) * Real.log 2⌉
  (m, k)

/-- Transcribed from rebuild: the recomputation of m and k from the config. -/
noncomputable def rebuildParams (n : ℕ) (p : ℝ) : ℤ × ℤ :=
  let m : ℤ := ⌈-(n : ℝ) * Real.log p / (Real.log 2 * Real.log 2)⌉
  let k : ℤ := max 1 ⌈((m : ℝ) / (n : ℝ)) * Real.log 2⌉
  (m, k)

/-- An empty Redis instance (no keys), as on first start. -/
def demoRedis : RedisState := ⟨none, []⟩

/-- The route configuration: capacity 10000, error rate 0.01, with the
derived parameters m = 95851 and k = 7 (see the parameter-derivation
theorem), initialized against an empty Redis, which seeds the sample
usernames. -/
def demoState : FilterState :=
  initializeFilter (mkFilter 95851 7 10000 (1/100) demoRedis)

set_option maxRecDepth 400000

/-- C4: every successful saveToRedis call writes the metadata blob and
then deletes the elements key, so immediately after a successful
addUsername, seedWithSampleUsernames or rebuild the durable element set
is empty. -/
theorem saveToRedis_empties_elements (st : FilterState) (n : String)
    (h : st.isInitialized = true) :
    (saveToRedis st).redis.elements = [] ∧
    addUsername n st = Except.ok (addCore n st) ∧
    (addCore n st).redis.elements = [] ∧
    (seedWithSampleUsernames st).redis.elements = [] ∧
    (rebuild st).redis.elements = [] := by
  refine ⟨rfl, ?_, rfl, rfl, rfl⟩
  simp [addUsername, h]

/-- Witness for the C4 theorem at the demo state and the name bob. -/
theorem saveToRedis_empties_elements_witness :
    demoState.isInitialized = true ∧
    ((saveToRedis demoState).redis.elements = [] ∧
     addUsername "bob" demoState = Except.ok (addCore "bob" demoState) ∧
     (addCore "bob" demoState).redis.elements = [] ∧
     (seedWithSampleUsernames demoState).redis.elements = [] ∧
     (rebuild demoState).redis.elements = []) :=
  ⟨by decide, saveToRedis_empties_elements demoState "bob" (by decide)⟩

/-- C2 (code bug): after a successful addUsername("zebra99") on the
initialized demo filter, mightExist("zebra99") is true, but a successful
rebuild() loses the name: the elements key was already deleted by the
saveToRedis call inside addUsername, so rebuild replays an empty set and
mightExist("zebra99") returns false afterwards. -/
theorem rebuild_loses_added_name :
    addUsername "zebra99" demoState = Except.ok (addCore "zebra99" demoState) ∧
    mightExist "zebra99" (addCore "zebra99" demoState) = Except.ok true ∧
    mightExist "zebra99" (rebuild (addCore "zebra99" demoState)) = Except.ok false :=
  ⟨rfl, rfl, rfl⟩

/-- C3 (code bug): a successful addUsername("zebra99") sets the bits of
the name in the bit array, but leaves the durable element set empty, so
the added element is not a member of the shadow set at the time of the
last successful persistence.  (Adding the same name twice does leave the
set cardinality unchanged, but only because the set is always empty.) -/
theorem added_name_not_in_shadow_set :
    addUsername "zebra99" demoState = Except.ok (addCore "zebra99" demoState) ∧
    (addCore "zebra99" demoState).engine.has "zebra99" = true ∧
    (addCore "zebra99" demoState).redis.elements = [] ∧
    "zebra99" ∉ (addCore "zebra99" demoState).redis.elements :=
  ⟨rfl, rfl, rfl, by decide⟩

/-- C6: the functions mapping (capacity, errorRate) to (m, k) at the
three reconstruction sites are extensionally equal to the constructor
computation: every reconstruction site produces identical m and k for
identical inputs. -/
theorem params_recomputed_identically (n : ℕ) (p : ℝ) :
    loadParams n p = constructorParams n p ∧
    clearParams n p = constructorParams n p ∧
    rebuildParams n p = constructorParams n p :=
  ⟨rfl, rfl, rfl⟩

/-- C7: addUsername is idempotent: adding the same name twice leaves the
estimated element count of getStats equal to that after a single add
(so the growth of the double add equals the growth of the single add),
and the durable element-set cardinality is likewise unaffected. -/
theorem addUsername_idempotent (st : FilterState) (n : String)
    (h : st.isInitialized = true) :
    addUsername n st = Except.ok (addCore n st) ∧
    addUsername n (addCore n st) = Except.ok (addCore n (addCore n st)) ∧
    (getStats (addCore n (addCore n st))).estimatedElements =
      (getStats (addCore n st)).estimatedElements ∧
    (addCore n (addCore n st)).redis.elements.length =
      (addCore n st).redis.elements.length := by
  refine ⟨by simp [addUsername, h], by simp [addUsername, addCore, saveToRedis, h], ?_, rfl⟩
  simp only [getStats, FilterStats.mk.injEq, addCore, saveToRedis,
    BloomFilterEngine.add, BloomFilterEngine.count]
  rw [List.insert_of_mem (List.mem_insert_self _ _)]

/-- Witness for the C7 theorem at the demo state and the name bob. -/
theorem addUsername_idempotent_witness :
    demoState.isInitialized = true ∧
    (addUsername "bob" demoState = Except.ok (addCore "bob" demoState) ∧
     addUsername "bob" (addCore "bob" demoState) =
       Except.ok (addCore "bob" (addCore "bob" demoState)) ∧
     (getStats (addCore "bob" (addCore "bob" demoState))).estimatedElements =
       (getStats (addCore "bob" demoState)).estimatedElements ∧
     (addCore "bob" (addCore "bob" demoState)).redis.elements.length =
       (addCore "bob" demoState).redis.elements.length) :=
  ⟨by decide, addUsername_idempotent demoState "bob" (by decide)⟩

/-- C8 counterexample: after clear() on the initialized demo filter (which
contains "alice" through seeding), mightExist("alice") does not return
false: clear resets the isInitialized flag, so mightExist throws the
not-initialized error. -/
theorem clear_mightExist_throws :
    mightExist "alice" (clear demoState) = Except.error "Bloom filter not initialized" ∧
    mightExist "alice" (clear demoState) ≠ Except.ok false :=
  ⟨rfl, by decide⟩

/-- C8 amended: after a successful clear(), mightExist("alice") fails
with the not-initialized error rather than returning; the cleared engine
itself (a fresh filter with no set bits) reports non-membership for
"alice", as for every name, whenever it uses at least one hash function. -/
theorem clear_then_mightExist (st : FilterState) (h : 1 ≤ st.kParam) :
    mightExist "alice" (clear st) = Except.error "Bloom filter not initialized" ∧
    (clear st).engine.has "alice" = false := by
  refine ⟨rfl, ?_⟩
  have hne : hashPositions st.mParam st.kParam "alice" ≠ [] := by
    simp only [hashPositions, ne_eq, List.map_eq_nil_iff, List.range_eq_nil]
    omega
  cases hp : hashPositions st.mParam st.kParam "alice" with
  | nil => exact absurd hp hne
  | cons a l =>
      simp [clear, freshEngine, BloomFilterEngine.has, hp]

/-- Witness for the C8 amended theorem at the demo state. -/
theorem clear_then_mightExist_witness :
    1 ≤ demoState.kParam ∧
    (mightExist "alice" (clear demoState) = Except.error "Bloom filter not initialized" ∧
     (clear demoState).engine.has "alice" = false) :=
  ⟨by decide, clear_then_mightExist demoState (by decide)⟩

/-- C9: validateCache flags the cache invalid exactly when exactly one of
the two Redis keys exists (metadata blob present with the elements key
missing, or the other way round), or when the stored element count and
the engine insertion count differ by more than the fixed tolerance of 10;
otherwise it reports the cache valid; and it never changes the state. -/
theorem validateCache_characterization (st : FilterState) :
    (validateCache st).2 = st ∧
    ((validateCache st).1.isValid = false ↔
      (st.redis.meta.isSome = false ∧ st.redis.elements ≠ []) ∨
      (st.redis.meta.isSome = true ∧ st.redis.elements = []) ∨
      10 < ((st.redis.elements.length : ℤ) - (st.engine.count : ℤ)).natAbs) := by
  refine ⟨rfl, ?_⟩
  simp only [validateCache, Bool.not_eq_eq_eq_not, Bool.not_true, Bool.not_or,
    Bool.and_eq_false_iff]
  cases hm : st.redis.meta.isSome <;>
    cases he : st.redis.elements.isEmpty <;>
      simp_all [List.isEmpty_iff, decide_eq_true_iff]

/-- C10: the /username/validate route fails with the invalid-input
response (HTTP 400) on every username that is empty or whitespace-only,
with a result independent of the filter state (the filter is neither
consulted nor modified); on every other username it returns the
lower-cased, trimmed normalized name together with the verdict of the
filter engine on that normalized name. -/
theorem validateUsernameRoute_characterization :
    (∀ u st, jsTrim u = "" → validateUsernameRoute u st = RouteResponse.invalidInput) ∧
    (∀ u st st2, jsTrim u = "" → validateUsernameRoute u st = validateUsernameRoute u st2) ∧
    (∀ u st b, jsTrim u ≠ "" →
      mightExist (jsTrim (jsToLower u)) st = Except.ok b →
      validateUsernameRoute u st = RouteResponse.ok (jsTrim (jsToLower u)) b) := by
  refine ⟨?_, ?_, ?_⟩
  · intro u st h
    simp [validateUsernameRoute, h]
  · intro u st st2 h
    simp [validateUsernameRoute, h]
  · intro u st b h hme
    simp [validateUsernameRoute, h, hme]

/-- Witness for the C10 theorem: a whitespace-only request and the
request "  Alice " (normalizing to "alice") against the demo state. -/
theorem validateUsernameRoute_characterization_witness :
    (jsTrim "   " = "" ∧
     validateUsernameRoute "   " demoState = RouteResponse.invalidInput) ∧
    (validateUsernameRoute "   " demoState = validateUsernameRoute "   " (clear demoState)) ∧
    (jsTrim "  Alice " ≠ "" ∧
     mightExist (jsTrim (jsToLower "  Alice ")) demoState = Except.ok true ∧
     validateUsernameRoute "  Alice " demoState =
       RouteResponse.ok (jsTrim (jsToLower "  Alice ")) true) :=
  ⟨⟨by decide, validateUsernameRoute_characterization.1 "   " demoState (by decide)⟩,
   validateUsernameRoute_characterization.2.1 "   " demoState (clear demoState) (by decide),
   ⟨by decide, rfl,
    validateUsernameRoute_characterization.2.2 "  Alice " demoState true (by decide) rfl⟩⟩

/-- addCore leaves the engine parameters, the initialized flag and the
config untouched; its engine is the old engine with the name added. -/
theorem addCore_engine (n : String) (st : FilterState) :
    (addCore n st).engine = st.engine.add (jsToLower n) := rfl

/-- The engine add operation preserves the bit-array size. -/
theorem add_size (bf : BloomFilterEngine) (s : String) :
    (bf.add s).size = bf.size := rfl

/-- The engine add operation preserves the hash count. -/
theorem add_hashes (bf : BloomFilterEngine) (s : String) :
    (bf.add s).hashes = bf.hashes := rfl

/-- Every bit set before an engine add is still set afterwards. -/
theorem add_bits_mono (bf : BloomFilterEngine) (s : String) (p : ℕ)
    (h : p ∈ bf.bits) : p ∈ (bf.add s).bits := by
  simp only [BloomFilterEngine.add, List.mem_append]
  exact Or.inl h

/-- The membership test is monotone along engines with the same
parameters and at least the same set bits. -/
theorem has_mono (bf bf2 : BloomFilterEngine) (s : String)
    (hsize : bf2.size = bf.size) (hhash : bf2.hashes = bf.hashes)
    (hbits : ∀ p, p ∈ bf.bits → p ∈ bf2.bits) (h : bf.has s = true) :
    bf2.has s = true := by
  simp only [BloomFilterEngine.has, List.all_eq_true, decide_eq_true_iff] at h ⊢
  rw [hsize, hhash]
  intro p hp
  exact hbits p (h p hp)

/-- Right after an engine add, the membership test accepts the element. -/
theorem has_add_self (bf : BloomFilterEngine) (s : String) :
    (bf.add s).has s = true := by
  simp only [BloomFilterEngine.has, BloomFilterEngine.add, List.all_eq_true,
    decide_eq_true_iff, List.mem_append]
  intro p hp
  exact Or.inr hp

/-- A sequence of adds preserves the initialized flag. -/
theorem runAdds_isInitialized (names : List String) (st : FilterState) :
    (runAdds names st).isInitialized = st.isInitialized := by
  induction names generalizing st with
  | nil => rfl
  | cons a l ih => exact ih (addCore a st)

/-- A sequence of adds preserves the bit-array size. -/
theorem runAdds_size (names : List String) (st : FilterState) :
    (runAdds names st).engine.size = st.engine.size := by
  induction names generalizing st with
  | nil => rfl
  | cons a l ih => exact ih (addCore a st)

/-- A sequence of adds preserves the hash count. -/
theorem runAdds_hashes (names : List String) (st : FilterState) :
    (runAdds names st).engine.hashes = st.engine.hashes := by
  induction names generalizing st with
  | nil => rfl
  | cons a l ih => exact ih (addCore a st)

/-- Every bit set before a sequence of adds is still set afterwards. -/
theorem runAdds_bits_mono (names : List String) (st : FilterState) (p : ℕ)
    (h : p ∈ st.engine.bits) : p ∈ (runAdds names st).engine.bits := by
  induction names generalizing st with
  | nil => exact h
  | cons a l ih =>
      exact ih (addCore a st) (add_bits_mono st.engine (jsToLower a) p h)

/-- C1: no false negatives: on an initialized filter, addUsername(n)
succeeds with the addCore state, and after any further sequence of
successful addUsername calls (mightExist calls are read-only), every
subsequent mightExist(n) call returns true. -/
theorem no_false_negatives (st : FilterState) (n : String) (names : List String)
    (h : st.isInitialized = true) :
    addUsername n st = Except.ok (addCore n st) ∧
    mightExist n (runAdds names (addCore n st)) = Except.ok true := by
  constructor
  · simp [addUsername, h]
  · have hinit : (runAdds names (addCore n st)).isInitialized = true := by
      rw [runAdds_isInitialized]; exact h
    have hstart : (addCore n st).engine.has (jsToLower n) = true := by
      rw [addCore_engine]; exact has_add_self st.engine (jsToLower n)
    have hhas : (runAdds names (addCore n st)).engine.has (jsToLower n) = true := by
      refine has_mono (addCore n st).engine _ _ ?_ ?_ ?_ hstart
      · exact runAdds_size names (addCore n st)
      · exact runAdds_hashes names (addCore n st)
      · exact fun p hp => runAdds_bits_mono names (addCore n st) p hp
    simp [mightExist, hinit, hhas]

/-- Witness for the C1 theorem: add "zebra99" to the demo state, then two
further adds, then query. -/
theorem no_false_negatives_witness :
    demoState.isInitialized = true ∧
    (addUsername "zebra99" demoState = Except.ok (addCore "zebra99" demoState) ∧
     mightExist "zebra99" (runAdds ["kilo", "lima"] (addCore "zebra99" demoState)) =
       Except.ok true) :=
  ⟨by decide, no_false_negatives demoState "zebra99" ["kilo", "lima"] (by decide)⟩

/-- Bounds for log(5/4) from the Taylor series of log(1-x) at x = -1/4
with ten terms. -/
theorem log_54_bounds :
    (147409261/660602880 : ℝ) - 1/3145728 ≤ Real.log (5/4) ∧
    Real.log (5/4) ≤ (147409261/660602880 : ℝ) + 1/3145728 := by
  have hx : |(-1/4 : ℝ)| < 1 := abs_lt.mpr (by norm_num)
  have h := Real.abs_log_sub_add_sum_range_le hx 10
  have hsum : (∑ i ∈ Finset.range 10, (-1/4 : ℝ) ^ (i + 1) / (i + 1)) =
      -(147409261/660602880 : ℝ) := by
    simp [Finset.sum_range_succ]
    norm_num
  rw [hsum] at h
  have h14 : (1 : ℝ) - (-1/4) = 5/4 := by norm_num
  rw [h14] at h
  have hb : |(-1/4 : ℝ)| ^ (10 + 1) / (1 - |(-1/4 : ℝ)|) = 1/3145728 := by
    rw [abs_of_nonpos (by norm_num : (-1/4 : ℝ) ≤ 0)]
    norm_num
  rw [hb] at h
  have h2 := abs_le.mp h
  constructor <;> [linarith [h2.1]; linarith [h2.2]]

/-- log 100 decomposed over log 2 and log (5/4). -/
theorem log_100_eq : Real.log 100 = 6 * Real.log 2 + 2 * Real.log (5/4) := by
  have h100 : (100 : ℝ) = 2 ^ 6 * (5/4) ^ 2 := by norm_num
  rw [h100, Real.log_mul (by norm_num) (by norm_num), Real.log_pow, Real.log_pow]
  push_cast
  ring

/-- The optimal bit-array size for capacity 10000 and error rate 0.01 is
exactly 95851. -/
theorem bloom_m_concrete :
    (⌈-(10000 : ℝ) * Real.log (1/100) / (Real.log 2 * Real.log 2)⌉ : ℤ) = 95851 := by
  have hl2a : (0.6931471803 : ℝ) < Real.log 2 := Real.log_two_gt_d9
  have hl2b : Real.log 2 < 0.6931471808 := Real.log_two_lt_d9
  obtain ⟨h54a, h54b⟩ := log_54_bounds
  have hden : (0:ℝ) < Real.log 2 * Real.log 2 := by nlinarith
  have hval : -(10000 : ℝ) * Real.log (1/100) / (Real.log 2 * Real.log 2)
      = 10000 * Real.log 100 / (Real.log 2 * Real.log 2) := by
    rw [one_div, Real.log_inv]; ring
  rw [hval, Int.ceil_eq_iff]
  have hsq : Real.log 2 * Real.log 2 < 0.6931471808 * 0.6931471808 := by nlinarith
  have hsq2 : (0.6931471803 : ℝ) * 0.6931471803 < Real.log 2 * Real.log 2 := by nlinarith
  constructor
  · rw [lt_div_iff₀ hden, log_100_eq]
    push_cast
    nlinarith [h54a, hsq]
  · rw [div_le_iff₀ hden, log_100_eq]
    push_cast
    nlinarith [h54b, hsq2]

/-- The optimal hash count for bit-array size 95851 and capacity 10000
is exactly 7. -/
theorem bloom_k_concrete :
    max (1 : ℤ) ⌈((95851 : ℤ) : ℝ) / (10000 : ℝ) * Real.log 2⌉ = 7 := by
  have hl2a : (0.6931471803 : ℝ) < Real.log 2 := Real.log_two_gt_d9
  have hl2b : Real.log 2 < 0.6931471808 := Real.log_two_lt_d9
  have hc : (⌈((95851 : ℤ) : ℝ) / (10000 : ℝ) * Real.log 2⌉ : ℤ) = 7 := by
    rw [Int.ceil_eq_iff]
    constructor
    · push_cast
      nlinarith [hl2a]
    · push_cast
      nlinarith [hl2b]
  rw [hc]
  norm_num

/-- C5: the constructor computes m = ceil(-n ln p / (ln 2)^2) and
k = max(1, ceil((m/n) ln 2)); for capacity 10000 and error rate 0.01 this
yields exactly m = 95851 and k = 7. -/
theorem constructorParams_10000 :
    constructorParams 10000 (1/100) = (95851, 7) := by
  have h0 : constructorParams 10000 (1/100) =
      (⌈-(10000 : ℝ) * Real.log (1/100) / (Real.log 2 * Real.log 2)⌉,
       max 1 ⌈((⌈-(10000 : ℝ) * Real.log (1/100) / (Real.log 2 * Real.log 2)⌉ : ℝ)
         / (10000 : ℝ)) * Real.log 2⌉) := rfl
  rw [h0, bloom_m_concrete, bloom_k_concrete]
